import Mathlib

/-!
Verification development for the presentation-assembly core
(layout_engine.py and presentation_engine.py).

The Python code is shallowly embedded: dictionaries become structures of
optional fields (a field is `none` when the key is absent), Python
exceptions become `Except PyErr`, and external collaborators (the LLM,
the JSON parser of the standard library, the XML parser) become explicit
function parameters.  Machine integers do not overflow in any of the
embedded code paths, so `Nat`/`Int` are used directly.
-/

/-- Python exceptions that the embedded code can raise. -/
inductive PyErr
  | attributeError (attr : String)
  | indexError
  | valueError (msg : String)
  | typeError (msg : String)
  | keyError (key : String)
  | jsonDecodeError (msg : String)
deriving DecidableEq, Repr

/-- JSON values, as produced by json.loads. -/
inductive Json
  | null
  | bool (b : Bool)
  | num (n : Int)
  | str (s : String)
  | arr (elems : List Json)
  | obj (fields : List (String × Json))
deriving Repr

/-- Test that the first list is an initial segment of the second.
(String operations are carried out on the underlying character lists
throughout this development, mirroring the codepoint semantics of Python
strings.) -/
def leadsWith : List Char → List Char → Bool
  | [], _ => true
  | _ :: _, [] => false
  | n :: ns, h :: hs => n == h && leadsWith ns hs

/-- Occurrence test of a character sequence inside another. -/
def containsSeq (needle : List Char) : List Char → Bool
  | [] => needle.isEmpty
  | h :: hs => leadsWith needle (h :: hs) || containsSeq needle hs

/-- Python substring test `needle in hay` for strings. -/
def strContainsSub (hay needle : String) : Bool :=
  containsSeq needle.data hay.data

/-- Python startswith. -/
def strLeads (s p : String) : Bool :=
  leadsWith p.data s.data

/-- Python endswith. -/
def strEnds (s p : String) : Bool :=
  leadsWith p.data.reverse s.data.reverse

/-- Python s[n:], dropping the first n characters. -/
def strDrop (s : String) (n : Nat) : String :=
  String.mk (s.data.drop n)

/-- Python s[:-n], dropping the last n characters. -/
def strDropRight (s : String) (n : Nat) : String :=
  String.mk (s.data.take (s.data.length - n))

/-- Python str.strip() with no argument: whitespace removed from both
ends (the embedded inputs only carry ASCII whitespace). -/
def strTrim (s : String) : String :=
  String.mk (((s.data.dropWhile Char.isWhitespace).reverse.dropWhile Char.isWhitespace).reverse)

/-- Python str.lower() (the embedded comparisons only involve ASCII
letters). -/
def lowerStr (s : String) : String :=
  String.mk (s.data.map Char.toLower)

/-- Splitter for Python str.split with a single-character separator:
every occurrence separates, empty fragments are kept. -/
def splitOnCharAux (sep : Char) : List Char → List Char → List (List Char)
  | [], acc => [acc.reverse]
  | c :: cs, acc =>
    if c == sep then acc.reverse :: splitOnCharAux sep cs []
    else splitOnCharAux sep cs (c :: acc)

/-- Python s.split(sep) for a one-character separator. -/
def pySplitOnChar (s : String) (sep : Char) : List String :=
  (splitOnCharAux sep s.data []).map String.mk

/-- Accumulating splitter on whitespace runs for Python str.split() with
no argument (empty fragments dropped). -/
def splitWSAux : List Char → List Char → List (List Char)
  | [], acc => if acc.isEmpty then [] else [acc.reverse]
  | c :: cs, acc =>
    if c.isWhitespace then
      (if acc.isEmpty then splitWSAux cs [] else acc.reverse :: splitWSAux cs [])
    else splitWSAux cs (c :: acc)

/-- Python str.split() with no argument: split on whitespace runs,
dropping empty fragments. -/
def pySplitWS (s : String) : List String :=
  (splitWSAux s.data []).map String.mk

/-- Splitter on the three-backtick fence, scanning left to right over
non-overlapping occurrences. -/
def splitFenceAux : List Char → List Char → List (List Char)
  | '\x60' :: '\x60' :: '\x60' :: rest, acc => acc.reverse :: splitFenceAux rest []
  | c :: cs, acc => splitFenceAux cs (c :: acc)
  | [], acc => [acc.reverse]

/-- Python s.split with the three-backtick fence for separator (all
occurrences; the only consumer reads index one, where this agrees with
the maxsplit-two variant of the source). -/
def splitFence (s : String) : List String :=
  (splitFenceAux s.data []).map String.mk

/-- Value of a maximal run of decimal digits. -/
def digitsToNat (s : String) : Nat :=
  s.data.foldl (fun n c => n * 10 + (c.toNat - 48)) 0

/-- Python int(s) on an underscore-free string: optional surrounding
whitespace, optional sign, then one or more decimal digits; anything else
raises ValueError.  (The callers below only feed it fragments of a string
split on underscores, so the PEP-515 underscore grouping never arises.) -/
def pyInt (s : String) : Except PyErr Int :=
  let t := strTrim s
  let sign : Int := if strLeads t "-" then -1 else 1
  let digits := if strLeads t "-" || strLeads t "+" then strDrop t 1 else t
  if digits.length > 0 && digits.data.all Char.isDigit then
    Except.ok (sign * (digitsToNat digits : Int))
  else
    Except.error (PyErr.valueError s)

/-- Python str.strip of the character set containing only the backtick,
as in response.strip with three backticks for the argument. -/
def pyStripBackticks (s : String) : String :=
  String.mk (((s.toList.dropWhile (· == '\x60')).reverse.dropWhile (· == '\x60')).reverse)

/-- Python list indexing with an Int index: negative indices count from the
end; an index out of range raises IndexError. -/
def pyListGet {α : Type} (l : List α) (i : Int) : Except PyErr α :=
  let j : Int := if i < 0 then i + l.length else i
  if h : 0 ≤ j ∧ j < l.length then
    Except.ok (l.get ⟨j.toNat, by omega⟩)
  else
    Except.error PyErr.indexError

/-- Python list item assignment at an Int index (callers only reach this
after a successful pyListGet at the same index). -/
def pyListSet {α : Type} (l : List α) (i : Int) (a : α) : List α :=
  let j : Int := if i < 0 then i + l.length else i
  if 0 ≤ j then l.set j.toNat a else l

/-- One content block of a slide plan: a Python dict of which the embedded
code reads the keys type, items, steps and data (a missing key is none). -/
structure Block where
  type : Option String := none
  items : Option (List String) := none
  steps : Option (List String) := none
  data : Option (List (List String)) := none
deriving DecidableEq, Repr

/-- One slide plan dict: the embedded code reads slide_number, subtitle,
title and content_blocks (a missing key is none). -/
structure SlideContent where
  slide_number : Option Int := none
  subtitle : Option String := none
  title : Option String := none
  content_blocks : Option (List Block) := none
deriving DecidableEq, Repr

/-- One layout definition of the catalog; only the id is consulted by the
embedded operations. -/
structure LayoutDef where
  id : String
deriving DecidableEq, Repr

/-- The loaded layout catalog: the layouts list and the declared default
layout id from layoutSelectionRules. -/
structure Catalog where
  layouts : List LayoutDef
  defaultLayout : String
deriving DecidableEq, Repr

/-- Fallback value returned by LayoutEngine when loading the layout file
fails (layout_engine.py line 26): an empty layouts list plus the
layoutSelectionRules entry naming content_with_title. -/
def fallbackLayouts : Catalog :=
  { layouts := [], defaultLayout := "content_with_title" }

/-- LayoutEngine load of the layout file (layout_engine.py lines 19-26).
Reading and json-parsing the file is external; its outcome is the
argument.  On any failure the error is logged (first component true) and
the fallback catalog is returned. -/
def loadLayouts (readResult : Except String Catalog) : Bool × Catalog :=
  match readResult with
  | Except.ok c => (false, c)
  | Except.error _ => (true, fallbackLayouts)

/-- The id-to-definition map built by LayoutEngine from the loaded catalog
(layout_engine.py line 17). -/
def buildLayoutMap (c : Catalog) : List (String × LayoutDef) :=
  c.layouts.map (fun l => (l.id, l))

/-- Resolution of a layout id against the catalog, as apply_layout does
through layout_map; none means the id is unusable. -/
def lookupLayout (c : Catalog) (lid : String) : Option LayoutDef :=
  (buildLayoutMap c).lookup lid

/-- Keyword triggers for kpi_dashboard (layout_engine.py line 99). -/
def kpiDashboardTriggers : List String :=
  ["dashboard", "metrics", "kpi", "performance metrics"]

/-- Keyword triggers for full_image_overlay (layout_engine.py line 103). -/
def fullImageTriggers : List String :=
  ["impactful", "dramatic", "visual statement"]

/-- Test of the regex for a prominent number, anchored at both ends:
one or more digits, an optional dot, further optional digits, then a
percent sign (layout_engine.py line 95). -/
def isPercentToken (w : String) : Bool :=
  let cs := w.toList
  let lead := cs.takeWhile Char.isDigit
  let rest := cs.dropWhile Char.isDigit
  !lead.isEmpty &&
    (rest == ['%'] ||
      (match rest with
       | '.' :: r2 => r2.dropWhile Char.isDigit == ['%']
       | _ => false))

/-- Per-block branch of the explicit block-type loop
(layout_engine.py lines 107-117). -/
def blockTypeLayout (b : Block) : Option String :=
  if b.type == some "table" then some "table"
  else if b.type == some "process" then some "process_flow"
  else if b.type == some "kpi" then some "kpi_dashboard"
  else if b.type == some "pyramid" then some "pyramid_hierarchy"
  else if b.type == some "comparison" then some "comparison_table"
  else none

/-- The for-loop over content blocks returning on the first block whose
type is one of the five dedicated kinds. -/
def scanBlocksForLayout (blocks : List Block) : Option String :=
  blocks.findSome? blockTypeLayout

/-- LayoutEngine._fallback_layout_selection (layout_engine.py lines
78-207), the deterministic rule chain.  The quote check of line 89 tests
the same ASCII double-quote character twice in the source and is embedded
as a single test. -/
def fallbackLayoutSelection (cat : Catalog) (sc : SlideContent) : String :=
  let title := lowerStr (sc.title.getD "")
  let content_blocks := sc.content_blocks.getD []
  let num_blocks := content_blocks.length
  if sc.slide_number.getD 0 == 1 || sc.subtitle.isSome then "title_slide"
  else if (sc.title.getD "").data.contains '\x22' then "quote"
  else if ((pySplitWS (sc.title.getD "")).take 3).any isPercentToken then "big_number"
  else if kpiDashboardTriggers.any (fun t => strContainsSub title t) then "kpi_dashboard"
  else if fullImageTriggers.any (fun t => strContainsSub title t) then "full_image_overlay"
  else
    match scanBlocksForLayout content_blocks with
    | some lid => lid
    | none =>
      if num_blocks == 2 && ((content_blocks.getLast?.bind Block.type) == some "content_box") then
        "two_content_boxes"
      else if num_blocks == 3 && content_blocks.any (fun b => b.type == some "column") then
        "three_columns"
      else if num_blocks == 4 then "four_content_grid"
      else if num_blocks == 5 then "five_columns"
      else if num_blocks == 6 then "six_box_grid"
      else if ["split", "dual view", "two perspectives", "left vs right"].any
          (fun t => strContainsSub title t) then "vertical_split"
      else if ["hierarchy", "pyramid", "levels", "foundation"].any
          (fun t => strContainsSub title t) then "pyramid_hierarchy"
      else if ["ecosystem", "hub", "central", "core"].any
          (fun t => strContainsSub title t) then "circular_diagram"
      else if ["comparison table", "versus table", "feature comparison"].any
          (fun t => strContainsSub title t) then "comparison_table"
      else if ["timeline", "roadmap", "phases", "journey"].any
          (fun t => strContainsSub title t) then "timeline"
      else if ["process", "steps", "workflow", "procedure"].any
          (fun t => strContainsSub title t) then "process_flow"
      else if ["alternating", "back and forth", "dialogue"].any
          (fun t => strContainsSub title t) then "alternating_content"
      else if ["before after", "then now", "problem solution"].any
          (fun t => strContainsSub title t) then "top_bottom_split"
      else if ["sidebar", "with notes", "plus context"].any
          (fun t => strContainsSub title t) then "content_with_sidebar"
      else if ["key takeaways", "highlights", "callouts"].any
          (fun t => strContainsSub title t) then "content_with_highlights"
      else if (["gallery", "showcase", "examples", "portfolio"].any
            (fun t => strContainsSub title t)) &&
          (strContainsSub title "image" || strContainsSub title "photo" ||
            strContainsSub title "visual") then
        (if num_blocks ≤ 4 then "picture_grid_2x2" else "three_column_images")
      else if ["key message", "central idea", "main point", "focus"].any
          (fun t => strContainsSub title t) then "centered_content"
      else if ["vs", "versus", "comparison", "highlights"].any
          (fun t => strContainsSub title t) then
        (if 2 ≤ (content_blocks.filter (fun b => b.type == some "content_box")).length then
          "two_content_boxes"
        else "two_column_text")
      else if ["next steps", "action items", "get started", "conclusion"].any
          (fun t => strContainsSub title t) then "call_to_action"
      else if (["strategic", "initiatives", "chapter", "section"].any
            (fun t => strContainsSub title t)) && content_blocks.isEmpty then
        "section_divider"
      else if ["image", "photo", "visual", "picture"].any
          (fun t => strContainsSub title t) then "left_content_right_image"
      else if num_blocks == 2 then "two_column_text"
      else if 3 ≤ num_blocks && num_blocks ≤ 5 then "three_columns"
      else cat.defaultLayout

/-- Capacity limits of one layout, a dict with the keys consulted by
the capacity check; none marks an absent key. -/
structure Caps where
  bullets : Option Nat := none
  boxes : Option Nat := none
  itemsPerBox : Option Nat := none
  steps : Option Nat := none
  rows : Option Nat := none
deriving DecidableEq, Repr

/-- Total bullet items: the sum of the item counts of the blocks whose
type is bullets (presentation_engine.py line 468). -/
def bulletTotal (blocks : List Block) : Nat :=
  ((blocks.filter (fun b => b.type == some "bullets")).map
    (fun b => (b.items.getD []).length)).sum

/-- Body of the capacity comparison (presentation_engine.py lines
464-493), given the caps dict for the chosen layout and the content
blocks: true exactly when one of the compared counts exceeds its
declared limit. -/
def needsShrinkCore (caps : Caps) (blocks : List Block) : Bool :=
  (match caps.bullets with
   | some lim => decide (bulletTotal blocks > lim)
   | none => false) ||
  (match caps.boxes, caps.itemsPerBox with
   | some boxLim, some perBoxLim =>
     let content_boxes := blocks.filter (fun b => b.type == some "content_box")
     decide (content_boxes.length > boxLim) ||
       content_boxes.any (fun cb => decide ((cb.items.getD []).length > perBoxLim))
   | _, _ => false) ||
  (match caps.steps with
   | some stepLim =>
     let steps_blocks := blocks.filter
       (fun b => b.type == some "process" || b.type == some "bullets")
     decide ((steps_blocks.map
       (fun sb => (sb.steps.getD (sb.items.getD [])).length)).sum > stepLim)
   | none => false) ||
  (match caps.rows with
   | some rowLim => blocks.any
       (fun b => b.type == some "table" && decide ((b.data.getD []).length > rowLim))
   | none => false)

/-- Python attribute access self.layout_engine.capacity_map
(presentation_engine.py lines 463 and 500).  LayoutEngine.__init__
(layout_engine.py lines 14-17) assigns only the instance attributes
layouts and layout_map, and no capacity_map attribute is defined
anywhere else in the repository, so this access raises AttributeError
on every instance. -/
def getCapacityMapAttr : Except PyErr (List (String × Caps)) :=
  Except.error (PyErr.attributeError "capacity_map")

/-- PresentationEngine._needs_shrink (presentation_engine.py lines
458-493): fetch the capacity map attribute, look up the caps for the
layout id with an empty-dict default, and run the count comparisons. -/
def needsShrink (slide_data : SlideContent) (layout_id : String) : Except PyErr Bool := do
  let capacity_map ← getCapacityMapAttr
  let caps := (capacity_map.lookup layout_id).getD {}
  return needsShrinkCore caps (slide_data.content_blocks.getD [])

/-- Low-level serialized form of one shape (its XML text). -/
abbrev Element := String

/-- The backing pptx document: its slides, each the list of its shapes
in low-level form. -/
structure PptxDoc where
  slides : List (List Element)
deriving DecidableEq, Repr

/-- Structural readback of a document as exposed to the caller. -/
abbrev DocStructure := List (List Element)

/-- PresentationEngine.parse_presentation restricted to the granularity
of this model: the per-slide lists of shape serializations. -/
def parseStructure (d : PptxDoc) : DocStructure :=
  d.slides

/-- Markdown-fence cleaning of _apply_edit (presentation_engine.py lines
244-255): strip, drop a leading fence, drop a trailing fence, strip. -/
def stripMd (s : String) : String :=
  let cleaned := strTrim s
  let cleaned :=
    if strLeads cleaned "```xml" then strDrop cleaned 6
    else if strLeads cleaned "```" then strDrop cleaned 3
    else cleaned
  let cleaned := if strEnds cleaned "```" then strDropRight cleaned 3 else cleaned
  strTrim cleaned

/-- PresentationEngine._parse_shape_id (presentation_engine.py lines
201-206): split on underscores and convert the second and fourth parts
with int(); a missing part raises IndexError, a non-integer part raises
ValueError, and nothing else about the id is validated. -/
def parseShapeId (shape_id : String) : Except PyErr (Int × Int) :=
  let parts := pySplitOnChar shape_id '_'
  match parts[1]? with
  | none => Except.error PyErr.indexError
  | some p1 =>
    match pyInt p1 with
    | Except.error e => Except.error e
    | Except.ok slide_idx =>
      match parts[3]? with
      | none => Except.error PyErr.indexError
      | some p3 =>
        match pyInt p3 with
        | Except.error e => Except.error e
        | Except.ok shape_idx => Except.ok (slide_idx, shape_idx)

/-- The canonical locator shape the specification describes: exactly the
four underscore-separated parts slide, decimal digits, shape, decimal
digits. -/
def isCanonicalShapeId (s : String) : Bool :=
  match pySplitOnChar s '_' with
  | [a, b, c, d] =>
    a == "slide" && c == "shape" &&
      decide (0 < b.length) && b.data.all Char.isDigit &&
      decide (0 < d.length) && d.data.all Char.isDigit
  | _ => false

/-- PresentationEngine.edit_shape (presentation_engine.py lines 168-199)
together with _apply_edit (lines 240-270).  The XML parser of the
standard library is the parameter parseXml (none models a parse
exception); llmReply is the collaborator response for the single
generate_response call; file is the persisted document, returned
unchanged unless a successful edit saves the swapped document. -/
def editShape (parseXml : String → Option Element) (llmReply : String)
    (file : PptxDoc) (shape_id : String) (structure0 : DocStructure) :
    Except PyErr (PptxDoc × Bool × DocStructure) :=
  match parseShapeId shape_id with
  | Except.error e => Except.error e
  | Except.ok (slide_idx, shape_idx) =>
    if slide_idx ≥ (file.slides.length : Int) then Except.ok (file, false, structure0)
    else
      match pyListGet file.slides slide_idx with
      | Except.error e => Except.error e
      | Except.ok slide =>
        if shape_idx ≥ (slide.length : Int) then Except.ok (file, false, structure0)
        else
          match pyListGet slide shape_idx with
          | Except.error e => Except.error e
          | Except.ok _shape =>
            match parseXml (stripMd llmReply) with
            | none => Except.ok (file, false, structure0)
            | some newElement =>
              let newDoc : PptxDoc :=
                { slides := pyListSet file.slides slide_idx (pyListSet slide shape_idx newElement) }
              Except.ok (newDoc, true, parseStructure newDoc)

/-- Python membership test `key in adjusted` on a json.loads result:
key lookup for an object, element equality for an array, substring test
for a string, TypeError otherwise. -/
def pyIn (key : String) : Json → Except PyErr Bool
  | Json.obj fields => Except.ok (fields.any (fun kv => kv.1 == key))
  | Json.arr elems => Except.ok (elems.any
      (fun j => match j with | Json.str s => s == key | _ => false))
  | Json.str s => Except.ok (strContainsSub s key)
  | _ => Except.error (PyErr.typeError "argument of the membership test is not iterable")

/-- Python subscript `adjusted[key]` on a json.loads result: defined only
for objects (the key being present after the guard of the caller),
TypeError otherwise. -/
def pySubscript (j : Json) (key : String) : Except PyErr Json :=
  match j with
  | Json.obj fields =>
    match fields.lookup key with
    | some v => Except.ok v
    | none => Except.error (PyErr.keyError key)
  | _ => Except.error (PyErr.typeError "value is not subscriptable with a string")

/-- Slide dict as handled by the shrink call: the two keys it reads and
writes, plus the remaining entries it leaves alone. -/
structure ShrinkPlan where
  title : Json
  content_blocks : Json
  extra : List (String × Json) := []
deriving Repr

/-- Collaborator for one shrink attempt: the outcome of its single
generate_response call (an error models a raised exception). -/
structure LLMOracle where
  reply : Except PyErr String

/-- Fence cleaning of _summarize_to_fit (presentation_engine.py lines
515-518): strip the response; when it opens with a fence and another
fence occurs beyond the first three characters, take the fragment
between the first two fences (split with maxsplit two, index one),
otherwise strip backtick characters from both ends. -/
def cleanedReply (resp : String) : String :=
  let response := strTrim resp
  if strLeads response "```" then
    if strContainsSub (strDrop response 3) "```" then (splitFence response).getD 1 ""
    else pyStripBackticks response
  else response

/-- Try block of _summarize_to_fit (presentation_engine.py lines
514-526), with the json.loads of the standard library passed in as
jsonLoads and the collaborator as llm.  The result carries the returned
slide dict, the collaborator call count (calls is its value on entry),
and whether the warning of the except branch was logged.  Every raise
inside the try lands in the except branch, which returns the dict
unchanged; a reply that parses to a value lacking one of the two keys
skips the update without logging.  In the source this block is
unreachable: the attribute read at line 500 raises first (see
summarizeToFit below). -/
def summarizeToFitTry (jsonLoads : String → Except PyErr Json) (llm : LLMOracle)
    (slide_data : ShrinkPlan) (calls : Nat) : ShrinkPlan × Nat × Bool :=
  let calls := calls + 1
  match llm.reply with
  | Except.error _ => (slide_data, calls, true)
  | Except.ok raw =>
    let response := cleanedReply raw
    match jsonLoads response with
    | Except.error _ => (slide_data, calls, true)
    | Except.ok adjusted =>
      match pyIn "title" adjusted with
      | Except.error _ => (slide_data, calls, true)
      | Except.ok false => (slide_data, calls, false)
      | Except.ok true =>
        match pyIn "content_blocks" adjusted with
        | Except.error _ => (slide_data, calls, true)
        | Except.ok false => (slide_data, calls, false)
        | Except.ok true =>
          match pySubscript adjusted "title" with
          | Except.error _ => (slide_data, calls, true)
          | Except.ok newTitle =>
            match pySubscript adjusted "content_blocks" with
            | Except.error _ => ({ slide_data with title := newTitle }, calls, true)
            | Except.ok newBlocks =>
              ({ slide_data with title := newTitle, content_blocks := newBlocks }, calls, false)

/-- PresentationEngine._summarize_to_fit (presentation_engine.py lines
495-526).  Its first statement, at line 500 and outside the try block,
reads self.layout_engine.capacity_map to gather the capacity limits for
the prompt; exactly as in _needs_shrink this attribute access raises
AttributeError, so the function raises before the prompt is built and
before the collaborator is contacted, and the try block above is never
entered.  The count of collaborator calls issued so far is threaded
through unchanged on the raising path. -/
def summarizeToFit (jsonLoads : String → Except PyErr Json) (llm : LLMOracle)
    (slide_data : ShrinkPlan) (layout_id : String) (calls : Nat) :
    Except PyErr (ShrinkPlan × Nat × Bool) :=
  match getCapacityMapAttr with
  | Except.error e => Except.error e
  | Except.ok capacity_map =>
    let _caps := (capacity_map.lookup layout_id).getD {}
    Except.ok (summarizeToFitTry jsonLoads llm slide_data calls)

/-- One entry of the parsed slide plan array: json.loads may yield a
bare string (skipped by the build loop) or a slide dict. -/
inductive PlanItem
  | strItem (s : String)
  | objItem (sd : SlideContent)

/-- Per-slide portion of the build loop (presentation_engine.py lines
386-429).  The index idx is the enumerate counter; a string entry is
skipped; for a dict entry the slide_number key is set to idx plus one
and the remaining selection, capacity check, add_slide and rendering
steps — whose outcomes depend on the collaborator and are wrapped in the
per-slide try/except — are the oracle assemble, none meaning the slide
ended up not added. -/
def buildSlides (assemble : Nat → SlideContent → Option (List Element)) :
    List PlanItem → Nat → List (List Element)
  | [], _ => []
  | PlanItem.strItem _ :: rest, idx => buildSlides assemble rest (idx + 1)
  | PlanItem.objItem sd :: rest, idx =>
    let sd := { sd with slide_number := some ((idx : Int) + 1) }
    match assemble idx sd with
    | none => buildSlides assemble rest (idx + 1)
    | some newSlide => newSlide :: buildSlides assemble rest (idx + 1)

/-- Slide clearing of build_from_structured_text (presentation_engine.py
lines 376-383): every existing slide relationship is dropped and the
slide id list is cleared, leaving the document with no slides. -/
def clearSlides (doc : PptxDoc) : PptxDoc :=
  { doc with slides := [] }

/-- PresentationEngine.build_from_structured_text after the plan has been
parsed (presentation_engine.py lines 367-432): load the document, detach
all pre-existing slides, then append one slide per surviving plan entry,
and persist the result. -/
def buildFromStructuredText (assemble : Nat → SlideContent → Option (List Element))
    (doc : PptxDoc) (plans : List PlanItem) : PptxDoc :=
  let prs := clearSlides doc
  { prs with slides := prs.slides ++ buildSlides assemble plans 0 }

/-- C1: the capacity check is claimed to return true exactly when a
compared count exceeds its declared limit; in the code, however, every
call of _needs_shrink raises AttributeError at its first line, because
it reads self.layout_engine.capacity_map and LayoutEngine.__init__
assigns only the attributes layouts and layout_map.  The comparison body
(needsShrinkCore) is never reached, so the function never returns true;
build_from_structured_text catches the exception and skips the capacity
check on every slide. -/
theorem c1_needs_shrink_always_raises (slide_data : SlideContent) (layout_id : String) :
    needsShrink slide_data layout_id = Except.error (PyErr.attributeError "capacity_map") :=
  rfl

/-- C2 counterexample: loading from a missing source logs the error but
falls back to a catalog whose layouts list is empty, so the resulting
catalog has zero usable layouts — even the declared default id
content_with_title resolves to no definition. -/
theorem c2_counterexample :
    (loadLayouts (Except.error "slide_layouts.json missing")).1 = true ∧
    (loadLayouts (Except.error "slide_layouts.json missing")).2.layouts.length = 0 ∧
    lookupLayout (loadLayouts (Except.error "slide_layouts.json missing")).2
      "content_with_title" = none :=
  ⟨rfl, rfl, rfl⟩

/-- C2 amended: every failing load reports the configuration error and
falls back to the fixed catalog whose layouts list is empty and whose
selection rules name content_with_title as default; the fallback catalog
contains zero layout definitions. -/
theorem c2_load_fallback (e : String) :
    loadLayouts (Except.error e) = (true, fallbackLayouts) ∧
    fallbackLayouts.layouts = [] ∧
    fallbackLayouts.defaultLayout = "content_with_title" :=
  ⟨rfl, rfl, rfl⟩

/-- C3: build detaches every pre-existing slide before adding new ones —
the resulting slide list is independent of the initial document — and
rebuilding with the same plans and the same per-slide outcomes yields
the same slide count (no accumulation). -/
theorem c3_build_idempotent (assemble : Nat → SlideContent → Option (List Element))
    (plans : List PlanItem) (doc doc' : PptxDoc) :
    (buildFromStructuredText assemble
        (buildFromStructuredText assemble doc plans) plans).slides.length
      = (buildFromStructuredText assemble doc plans).slides.length ∧
    (buildFromStructuredText assemble doc plans).slides
      = (buildFromStructuredText assemble doc' plans).slides :=
  ⟨rfl, rfl⟩

/-- C9: the deterministic fallback selection is a pure function — two
runs on identical slide content and an identical catalog return the same
layout id. -/
theorem c9_fallback_deterministic (cat1 cat2 : Catalog) (sc1 sc2 : SlideContent)
    (hcat : cat1 = cat2) (hsc : sc1 = sc2) :
    fallbackLayoutSelection cat1 sc1 = fallbackLayoutSelection cat2 sc2 := by
  rw [hcat, hsc]

/-- Witness for C9 at a concrete slide content and catalog. -/
theorem c9_fallback_deterministic_witness :
    fallbackLayoutSelection fallbackLayouts { slide_number := some 1 }
      = fallbackLayoutSelection fallbackLayouts { slide_number := some 1 } :=
  c9_fallback_deterministic fallbackLayouts fallbackLayouts
    { slide_number := some 1 } { slide_number := some 1 } rfl rfl

/-- C6: a slide that is number one or carries a subtitle field is always
given the title_slide layout, whatever its other signals. -/
theorem c6_title_slide (cat : Catalog) (sc : SlideContent)
    (h : sc.slide_number.getD 0 = 1 ∨ sc.subtitle.isSome = true) :
    fallbackLayoutSelection cat sc = "title_slide" := by
  unfold fallbackLayoutSelection
  rcases h with h | h
  · simp [h]
  · simp [h]

/-- Witness for C6: slide number one with a dashboard-keyword title and
six content blocks still selects title_slide. -/
theorem c6_title_slide_witness :
    fallbackLayoutSelection fallbackLayouts
      { slide_number := some 1, title := some "KPI Dashboard",
        content_blocks := some [{ type := some "table" }] } = "title_slide" :=
  c6_title_slide fallbackLayouts
    { slide_number := some 1, title := some "KPI Dashboard",
      content_blocks := some [{ type := some "table" }] }
    (Or.inl rfl)

/-- Slide content refuting C7: a numeric token without a percent sign
among the first three title words. -/
def numericTitleContent : SlideContent :=
  { slide_number := some 2, title := some "100 Days Ahead", content_blocks := some [] }

/-- C7 counterexample: the title "100 Days Ahead" of a non-first slide
with no subtitle, no quote marks and no keyword matches carries the
numeric token 100 among its first three words, yet the fallback
selection returns the catalog default instead of big_number — the code
only accepts tokens ending in a percent sign. -/
theorem c7_counterexample :
    ((pySplitWS (numericTitleContent.title.getD "")).take 3).any
        (fun w => decide (0 < w.length) && w.data.all Char.isDigit) = true ∧
    fallbackLayoutSelection fallbackLayouts numericTitleContent = "content_with_title" := by
  exact ⟨rfl, rfl⟩

/-- C7 amended: for a slide content not matched by the higher-priority
rules, the fallback selection returns big_number when one of the first
three whitespace-separated title words is a percent token — digits,
an optional decimal point with further digits, then a percent sign; a
purely numeric token does not trigger the rule. -/
theorem c7_percent_big_number (cat : Catalog) (sc : SlideContent)
    (h1 : sc.slide_number.getD 0 ≠ 1)
    (h2 : sc.subtitle = none)
    (h3 : (sc.title.getD "").data.contains '\x22' = false)
    (h4 : ((pySplitWS (sc.title.getD "")).take 3).any isPercentToken = true) :
    fallbackLayoutSelection cat sc = "big_number" := by
  unfold fallbackLayoutSelection
  have h3m : '\x22' ∉ (sc.title.getD "").data := by simpa using h3
  simp [h1, h2, h3m, h4]

/-- Witness for C7 amended at the specification example: the title
"87% Customer Satisfaction" with no content blocks yields big_number. -/
theorem c7_percent_big_number_witness :
    fallbackLayoutSelection fallbackLayouts
      { slide_number := some 2, title := some "87% Customer Satisfaction",
        content_blocks := some [] } = "big_number" :=
  c7_percent_big_number fallbackLayouts
    { slide_number := some 2, title := some "87% Customer Satisfaction",
      content_blocks := some [] }
    (by decide) rfl rfl rfl

/-- Slide content refuting C8: a table block together with a full-image
keyword in the title. -/
def impactfulTableContent : SlideContent :=
  { slide_number := some 3, title := some "An Impactful Quarter",
    content_blocks := some [{ type := some "table", data := some [["h", "v"]] }] }

/-- C8 counterexample: a non-first slide with no subtitle, no quote
marks, no percent token and no dashboard keyword carries a table block,
yet because its title contains the keyword impactful the selection
returns full_image_overlay, not table — the full-image keyword check
sits between rule four and the block-type scan. -/
theorem c8_counterexample :
    fallbackLayoutSelection fallbackLayouts impactfulTableContent = "full_image_overlay" ∧
    (impactfulTableContent.content_blocks.getD []).any
        (fun b => b.type == some "table") = true ∧
    kpiDashboardTriggers.any
        (fun t => strContainsSub (lowerStr (impactfulTableContent.title.getD "")) t) = false ∧
    impactfulTableContent.slide_number.getD 0 ≠ 1 ∧
    impactfulTableContent.subtitle = none ∧
    (impactfulTableContent.title.getD "").data.contains '\x22' = false ∧
    ((pySplitWS (impactfulTableContent.title.getD "")).take 3).any isPercentToken = false := by
  exact ⟨rfl, rfl, rfl, by decide, rfl, rfl, rfl⟩

/-- C8 amended: when additionally no full-image keyword (impactful,
dramatic, visual statement) occurs in the title, the block-type scan
decides before every remaining keyword group: the selection returns the
dedicated layout of the first content block whose type is table,
process, kpi, pyramid or comparison, whatever else the title contains. -/
theorem c8_block_type_priority (cat : Catalog) (sc : SlideContent) (lid : String)
    (h1 : sc.slide_number.getD 0 ≠ 1)
    (h2 : sc.subtitle = none)
    (h3 : (sc.title.getD "").data.contains '\x22' = false)
    (h4 : ((pySplitWS (sc.title.getD "")).take 3).any isPercentToken = false)
    (h5 : kpiDashboardTriggers.any
        (fun t => strContainsSub (lowerStr (sc.title.getD "")) t) = false)
    (h6 : fullImageTriggers.any
        (fun t => strContainsSub (lowerStr (sc.title.getD "")) t) = false)
    (h7 : scanBlocksForLayout (sc.content_blocks.getD []) = some lid) :
    fallbackLayoutSelection cat sc = lid := by
  unfold fallbackLayoutSelection
  have h3m : '\x22' ∉ (sc.title.getD "").data := by simpa using h3
  simp [h1, h2, h3m, h4, h5, h6, h7]

/-- Witness for C8 amended: a process-keyword title with a table block
still selects the table layout. -/
theorem c8_block_type_priority_witness :
    fallbackLayoutSelection fallbackLayouts
      { slide_number := some 4, title := some "Our Process Steps",
        content_blocks := some [{ type := some "table", data := some [["a"]] }] }
      = "table" :=
  c8_block_type_priority fallbackLayouts
    { slide_number := some 4, title := some "Our Process Steps",
      content_blocks := some [{ type := some "table", data := some [["a"]] }] }
    "table" (by decide) rfl rfl rfl rfl rfl rfl

/-- Every error raised by the int conversion is a ValueError. -/
theorem pyInt_error_is_valueError (s : String) (e : PyErr)
    (h : pyInt s = Except.error e) : ∃ m, e = PyErr.valueError m := by
  simp only [pyInt] at h
  repeat' split at h
  all_goals exact ⟨s, by simpa using h.symm⟩

/-- C10 counterexample: the locator x_1_y_2 is not of the canonical form
slide_i_shape_j, yet _parse_shape_id raises nothing and returns the pair
of its second and fourth parts — the slide and shape labels are never
validated. -/
theorem c10_counterexample :
    parseShapeId "x_1_y_2" = Except.ok (1, 2) ∧
    isCanonicalShapeId "x_1_y_2" = false := by
  exact ⟨rfl, rfl⟩

/-- C10 amended: for every shape id, _parse_shape_id follows the Python
evaluation order parts one, int of it, parts three, int of it, and (1) a
missing second part raises IndexError; (2) a non-integer second part
raises a ValueError; (3) a missing fourth part, when the second part
converted, raises IndexError; (4) a non-integer fourth part, when the
second converted, raises a ValueError; (5) whenever the second and
fourth parts both convert to integers the id is accepted and that pair
is returned — the slide and shape labels are never validated; and (6)
edit_shape propagates every such exception uncaught instead of
returning the not-found result it gives for in-form but out-of-range
indices. -/
theorem c10_locator_parse_cases (shape_id : String) :
    ((pySplitOnChar shape_id '_')[1]? = none →
      parseShapeId shape_id = Except.error PyErr.indexError) ∧
    (∀ p1 e1, (pySplitOnChar shape_id '_')[1]? = some p1 →
      pyInt p1 = Except.error e1 →
      parseShapeId shape_id = Except.error e1 ∧ ∃ m, e1 = PyErr.valueError m) ∧
    (∀ p1 i1, (pySplitOnChar shape_id '_')[1]? = some p1 →
      pyInt p1 = Except.ok i1 →
      (pySplitOnChar shape_id '_')[3]? = none →
      parseShapeId shape_id = Except.error PyErr.indexError) ∧
    (∀ p1 i1 p3 e3, (pySplitOnChar shape_id '_')[1]? = some p1 →
      pyInt p1 = Except.ok i1 →
      (pySplitOnChar shape_id '_')[3]? = some p3 →
      pyInt p3 = Except.error e3 →
      parseShapeId shape_id = Except.error e3 ∧ ∃ m, e3 = PyErr.valueError m) ∧
    (∀ p1 i1 p3 i3, (pySplitOnChar shape_id '_')[1]? = some p1 →
      pyInt p1 = Except.ok i1 →
      (pySplitOnChar shape_id '_')[3]? = some p3 →
      pyInt p3 = Except.ok i3 →
      parseShapeId shape_id = Except.ok (i1, i3)) ∧
    (∀ e, parseShapeId shape_id = Except.error e →
      ∀ (parseXml : String → Option Element) (reply : String) (file : PptxDoc)
        (st : DocStructure),
        editShape parseXml reply file shape_id st = Except.error e) := by
  refine ⟨?_, ?_, ?_, ?_, ?_, ?_⟩
  · intro h1
    simp only [parseShapeId, h1]
  · intro p1 e1 h1 h2
    exact ⟨by simp only [parseShapeId, h1, h2], pyInt_error_is_valueError p1 e1 h2⟩
  · intro p1 i1 h1 h2 h3
    simp only [parseShapeId, h1, h2, h3]
  · intro p1 i1 p3 e3 h1 h2 h3 h4
    exact ⟨by simp only [parseShapeId, h1, h2, h3, h4], pyInt_error_is_valueError p3 e3 h4⟩
  · intro p1 i1 p3 i3 h1 h2 h3 h4
    simp only [parseShapeId, h1, h2, h3, h4]
  · intro e h parseXml reply file st
    unfold editShape
    rw [h]

/-- Witness for C10 amended: the locator slide_x_shape_2 has the
non-integer second part x, the parse raises the ValueError for x, and
edit_shape with a trivial XML parser on a one-slide document propagates
that exception. -/
theorem c10_locator_parse_cases_witness :
    parseShapeId "slide_x_shape_2" = Except.error (PyErr.valueError "x") ∧
    editShape (fun _ => none) "reply" { slides := [["<sp>"]] } "slide_x_shape_2" [["<sp>"]]
      = Except.error (PyErr.valueError "x") := by
  have h := c10_locator_parse_cases "slide_x_shape_2"
  have hp := (h.2.1 "x" (PyErr.valueError "x") rfl rfl).1
  exact ⟨hp, h.2.2.2.2.2 (PyErr.valueError "x") hp
    (fun _ => none) "reply" { slides := [["<sp>"]] } [["<sp>"]]⟩

/-- C4: for a located shape, when the collaborator reply does not parse
as an XML fragment after fence-stripping the edit reports failure, the
persisted file is returned untouched and the returned structure is the
structure passed in; when it parses, the whole replacement element is
swapped in at the located position and the saved document is re-parsed —
the single-shape swap is all-or-nothing. -/
theorem c4_edit_all_or_nothing (parseXml : String → Option Element) (reply : String)
    (file : PptxDoc) (shape_id : String) (st : DocStructure)
    (slide_idx shape_idx : Int) (slide : List Element) (sh : Element)
    (hp : parseShapeId shape_id = Except.ok (slide_idx, shape_idx))
    (hsi : ¬ slide_idx ≥ (file.slides.length : Int))
    (hslide : pyListGet file.slides slide_idx = Except.ok slide)
    (hsj : ¬ shape_idx ≥ (slide.length : Int))
    (hsh : pyListGet slide shape_idx = Except.ok sh) :
    (parseXml (stripMd reply) = none →
      editShape parseXml reply file shape_id st = Except.ok (file, false, st)) ∧
    (∀ newElement, parseXml (stripMd reply) = some newElement →
      editShape parseXml reply file shape_id st =
        Except.ok
          ({ slides := pyListSet file.slides slide_idx (pyListSet slide shape_idx newElement) },
            true,
            parseStructure
              { slides := pyListSet file.slides slide_idx (pyListSet slide shape_idx newElement) })) := by
  unfold editShape
  rw [hp]
  dsimp only
  rw [if_neg hsi, hslide]
  dsimp only
  rw [if_neg hsj, hsh]
  dsimp only
  constructor
  · intro hnone
    rw [hnone]
  · intro newElement hsome
    rw [hsome]

/-- Witness for C4 at a one-slide, one-shape document with a reply the
XML parser rejects: the edit reports failure and returns the file and
structure unchanged. -/
theorem c4_edit_all_or_nothing_witness :
    editShape (fun _ => none) "not xml" { slides := [["<sp>"]] } "slide_0_shape_0" [["<old>"]]
      = Except.ok ({ slides := [["<sp>"]] }, false, [["<old>"]]) :=
  (c4_edit_all_or_nothing (fun _ => none) "not xml" { slides := [["<sp>"]] }
    "slide_0_shape_0" [["<old>"]] 0 0 ["<sp>"] "<sp>"
    rfl (by decide) rfl (by decide) rfl).1 rfl

/-- C5: the claim describes the shrink operation as issuing at most one
collaborator call and, on a bad reply, returning the plan unchanged with
a warning logged; in the code, however, every call of _summarize_to_fit
raises AttributeError at its first statement — the read of
self.layout_engine.capacity_map at presentation_engine.py line 500,
which sits outside the try block and fails for the same reason as in
_needs_shrink (LayoutEngine defines no capacity_map attribute).  No
collaborator call is ever issued, no plan is ever returned and no
warning of the except branch is ever logged: the collaborator call
count is unchanged for every collaborator, reply parser, plan and
layout id.  The caller catches the exception at lines 408-409 and keeps
the oversized slide data. -/
theorem c5_summarize_always_raises (jsonLoads : String → Except PyErr Json)
    (llm : LLMOracle) (slide_data : ShrinkPlan) (layout_id : String) (calls : Nat) :
    summarizeToFit jsonLoads llm slide_data layout_id calls
      = Except.error (PyErr.attributeError "capacity_map") :=
  rfl
